import Mathlib

/-!
# Booking backend: shallow embedding and verification

Shallow embedding of the booking admission / conflict-resolution engine of
the lecture-booking backend (FastAPI endpoints `bookings.py`, `schedules.py`,
`lectures.py`).  Dates are modelled as day numbers (`Nat`), times of day as
minutes since midnight (`Nat`); a date/time string field of a request is
modelled as `Option Nat` — `some v` when `datetime.strptime` succeeds with
parsed value `v`, `none` when it raises `ValueError`.  SQLAlchemy queries
`.filter(...).first()` become `List.find?`, `db.add` appends a row, row
updates map over the table.  Each endpoint returns `Except` mirroring either
the raised `HTTPException` (as a typed error) or the committed new database
state.
-/

namespace Booking

/-- A row of `user_infos` as read by the endpoints (`User`): id, role,
soft-delete flag. -/
structure UserRec where
  id : Nat
  role : String
  is_deleted : Bool
deriving DecidableEq, Repr

/-- A row of `teacher_profiles` (`TeacherProfile`); only its primary key is
read by the modelled endpoints. -/
structure TeacherProfileRec where
  id : Nat
deriving DecidableEq, Repr

/-- A row of `lectures` (`Lecture`): primary teacher reference,
multi-teacher flag, approval status, soft-delete flag. -/
structure LectureRec where
  id : Nat
  teacher_id : Nat
  lecture_title : String
  lecture_description : String
  approval_status : String
  is_multi_teacher : Bool
  is_deleted : Bool
deriving DecidableEq, Repr

/-- A row of `lecture_teachers` (`LectureTeacher`): an assignment of an
additional teacher to a (multi-teacher) lecture. -/
structure LectureTeacherRec where
  lecture_id : Nat
  teacher_id : Nat
deriving DecidableEq, Repr

/-- A row of `lecture_schedules` as written and read by `schedules.py`
(`LectureSchedule`): lecture reference, date, `[start,end)` time range,
expiry flag.  The autoincrement id is not modelled; no modelled code path
reads it. -/
structure ScheduleRec where
  lecture_id : Nat
  booking_date : Nat
  start_time : Nat
  end_time : Nat
  is_expired : Bool
deriving DecidableEq, Repr

/-- A row of `lecture_bookings` (`LectureBookingDB`): note the table has no
teacher reference column. -/
structure BookingRec where
  id : Nat
  user_id : Nat
  lecture_id : Nat
  status : String
  booking_date : Nat
  start_time : Nat
  end_time : Nat
  is_expired : Bool
deriving DecidableEq, Repr

/-- The persistent state the modelled endpoints read and write. -/
structure DB where
  users : List UserRec
  teacher_profiles : List TeacherProfileRec
  lectures : List LectureRec
  lecture_teachers : List LectureTeacherRec
  schedules : List ScheduleRec
  bookings : List BookingRec
deriving DecidableEq, Repr

/-- Query `db.query(Lecture).filter(Lecture.id == lid, Lecture.is_deleted == False).first()`. -/
def findLecture (db : DB) (lid : Nat) : Option LectureRec :=
  db.lectures.find? (fun l => l.id == lid && !l.is_deleted)

/-- Query `db.query(LectureTeacher).filter(lecture_id == lid, teacher_id == tid).first()`. -/
def findLectureTeacher (db : DB) (lid tid : Nat) : Option LectureTeacherRec :=
  db.lecture_teachers.find? (fun lt => lt.lecture_id == lid && lt.teacher_id == tid)

/-- Query `db.query(User).filter(User.id == tid, User.role == "teacher", User.is_deleted == False).first()`. -/
def findActiveTeacherUser (db : DB) (tid : Nat) : Option UserRec :=
  db.users.find? (fun u => u.id == tid && u.role == "teacher" && !u.is_deleted)

/-- Query `db.query(TeacherProfile).filter(TeacherProfile.id == tid).first()`. -/
def findTeacherProfile (db : DB) (tid : Nat) : Option TeacherProfileRec :=
  db.teacher_profiles.find? (fun p => p.id == tid)

/-- The three-clause interval comparison used against each existing booking
row in step 5 of `_validate_booking_data` (`bookings.py` lines 233-246):
`(ex.start <= s AND ex.end > s) OR (ex.start < e AND ex.end >= e) OR
(ex.start >= s AND ex.end <= e)`, where `(exStart, exEnd)` is the existing
row and `(s, e)` the candidate range. -/
def overlapsCheck (exStart exEnd s e : Nat) : Bool :=
  (decide (exStart ≤ s) && decide (exEnd > s)) ||
  (decide (exStart < e) && decide (exEnd ≥ e)) ||
  (decide (exStart ≥ s) && decide (exEnd ≤ e))

/-- The payload of `BookingItemCreate` as consumed by `_validate_booking_data`
and `create_booking`: ids plus the date/time string fields, each modelled by
its `strptime` parse result. -/
structure BookingItem where
  user_id : Nat
  lecture_id : Nat
  teacher_id : Nat
  reserved_date : Option Nat
  start_time : Option Nat
  end_time : Option Nat
deriving DecidableEq, Repr

/-- The rejection reasons `_validate_booking_data` can append, one
constructor per distinct `errors.append(...)` site in the source, in source
order. -/
inductive BookingError where
  /-- step 1: `booking_item.user_id != current_user.id` -/
  | userMismatch
  /-- step 2: lecture missing or soft-deleted -/
  | lectureNotFound
  /-- step 3: submitted teacher is neither primary nor assigned -/
  | teacherMismatch
  /-- step 4: a `strptime` call raised `ValueError` -/
  | formatError
  /-- step 4: `start_time >= end_time` -/
  | startNotBeforeEnd
  /-- step 4: `reserved_date < date.today()` -/
  | pastDate
  /-- step 5: an overlapping own booking with status pending/confirmed exists -/
  | conflictExists
  /-- step 5: the conflict query raised (re-parse failed) -/
  | conflictCheckFailed
deriving DecidableEq, Repr

/-- Which of the five admission rules an error belongs to (the numbered
comment blocks of `_validate_booking_data`). -/
def BookingError.rule : BookingError → Nat
  | .userMismatch => 1
  | .lectureNotFound => 2
  | .teacherMismatch => 3
  | .formatError => 4
  | .startNotBeforeEnd => 4
  | .pastDate => 4
  | .conflictExists => 5
  | .conflictCheckFailed => 5

/-- Step 1 of `_validate_booking_data`: a user may only book for themself. -/
def bookingErrs1 (item : BookingItem) (current_user : UserRec) : List BookingError :=
  if item.user_id ≠ current_user.id then [.userMismatch] else []

/-- Steps 2 and 3 of `_validate_booking_data`: lecture existence, and (only
when the lecture exists) teacher match against the primary teacher or an
assignment row. -/
def bookingErrs23 (db : DB) (item : BookingItem) : List BookingError :=
  match findLecture db item.lecture_id with
  | none => [.lectureNotFound]
  | some lecture =>
      if !(lecture.teacher_id == item.teacher_id ||
           (findLectureTeacher db item.lecture_id item.teacher_id).isSome) then
        [.teacherMismatch]
      else []

/-- Step 4 of `_validate_booking_data`: the three `strptime` parses (one
`ValueError` aborts the block), then start-before-end, then not-in-the-past. -/
def bookingErrs4 (item : BookingItem) (today : Nat) : List BookingError :=
  match item.reserved_date, item.start_time, item.end_time with
  | some d, some s, some e =>
      (if s ≥ e then [.startNotBeforeEnd] else []) ++
      (if d < today then [.pastDate] else [])
  | _, _, _ => [.formatError]

/-- Step 5 of `_validate_booking_data`: re-parse, then query for the first
own booking on the same lecture and date, with status pending or confirmed,
whose range satisfies `overlapsCheck`; a re-parse failure is caught by the
bare `except` and reported as a conflict-check error. -/
def bookingErrs5 (db : DB) (item : BookingItem) : List BookingError :=
  match item.reserved_date, item.start_time, item.end_time with
  | some d, some s, some e =>
      if (db.bookings.find? (fun b =>
            b.user_id == item.user_id && b.lecture_id == item.lecture_id &&
            b.booking_date == d &&
            (b.status == "pending" || b.status == "confirmed") &&
            overlapsCheck b.start_time b.end_time s e)).isSome then
        [.conflictExists]
      else []
  | _, _, _ => [.conflictCheckFailed]

/-- Function `_validate_booking_data`: the five rule blocks run unconditionally in
source order, appending to one shared `errors` list. -/
def validate_booking_data (db : DB) (item : BookingItem) (current_user : UserRec)
    (today : Nat) : List BookingError :=
  bookingErrs1 item current_user ++
  (bookingErrs23 db item ++ (bookingErrs4 item today ++ bookingErrs5 db item))

/-- Fresh autoincrement id for a new `lecture_bookings` row. -/
def nextBookingId (db : DB) : Nat :=
  (db.bookings.map (fun b => b.id)).foldr max 0 + 1

/-- Endpoint `create_booking` (POST register): validate; on any error answer 400
with `errors[0]`; otherwise insert one new row with status `"pending"` and
the parsed date/times, and commit.  (On success the parses are `some`:
rule 4 would otherwise have produced an error.) -/
def create_booking (db : DB) (item : BookingItem) (current_user : UserRec)
    (today : Nat) : Except BookingError DB :=
  match validate_booking_data db item current_user today with
  | e :: _ => .error e
  | [] =>
      match item.reserved_date, item.start_time, item.end_time with
      | some d, some s, some e =>
          .ok { db with bookings := db.bookings ++
            [⟨nextBookingId db, item.user_id, item.lecture_id, "pending", d, s, e, false⟩] }
      | _, _, _ => .error .formatError

/-- The errors `cancel_booking` can raise, one per `HTTPException` site. -/
inductive CancelError where
  | bookingNotFound
  | notOwnBooking
  /-- status "confirmed": the specific already-confirmed refusal -/
  | alreadyConfirmed
  /-- any other non-pending status: the generic refusal naming the status -/
  | cannotCancelFrom (status : String)
deriving DecidableEq, Repr

/-- Endpoint `cancel_booking` (PUT cancel by booking id): look the booking up by id,
require ownership, allow the transition only from `pending`, distinguishing
`confirmed` from other non-pending statuses; on success set the status to
`cancelled` and commit. -/
def cancel_booking (db : DB) (booking_id : Nat) (current_user : UserRec) :
    Except CancelError DB :=
  match db.bookings.find? (fun b => b.id == booking_id) with
  | none => .error .bookingNotFound
  | some booking =>
      if booking.user_id ≠ current_user.id then .error .notOwnBooking
      else if booking.status ≠ "pending" then
        if booking.status = "confirmed" then .error .alreadyConfirmed
        else .error (.cannotCancelFrom booking.status)
      else .ok { db with bookings := db.bookings.map (fun b =>
        if b.id == booking_id then { b with status := "cancelled" } else b) }

/-- The payload of `ScheduleCreate` as consumed by `create_schedule`: lecture
and teacher ids plus the date/time string fields as parse results. -/
structure ScheduleReq where
  lecture_id : Nat
  teacher_id : Nat
  date : Option Nat
  start : Option Nat
  ed : Option Nat
deriving DecidableEq, Repr

/-- The errors `create_schedule` can raise, one per `HTTPException` site in
source order. -/
inductive ScheduleError where
  /-- role is neither teacher nor admin -/
  | roleForbidden
  /-- lecture missing or soft-deleted -/
  | lectureNotFound
  /-- teacher actor is not the primary teacher of the lecture -/
  | notOwnLecture
  /-- teacher actor supplied a `teacher_id` other than their own -/
  | teacherIdNotSelf
  /-- admin path: the supplied teacher is missing, deleted or not a teacher -/
  | teacherNotFound
  /-- admin path: the supplied teacher has no profile row -/
  | teacherProfileMissing
  /-- a `strptime` call raised `ValueError` -/
  | formatError
  /-- start time is not strictly before end time -/
  | startNotBeforeEnd
  /-- date lies strictly before today -/
  | pastDate
  /-- the candidate range overlaps the first active same-day schedule row -/
  | conflict
deriving DecidableEq, Repr

/-- Endpoint `create_schedule` (POST on schedules): role check, lecture
lookup, teacher/admin authorization, parse, start-before-end, not-in-the-past,
then the duplicate-time check — which fetches only the FIRST non-expired
schedule row of the same lecture and date (`.first()`, `schedules.py` lines
141-147) and compares the candidate against that single row; finally insert
and commit. -/
def create_schedule (db : DB) (sd : ScheduleReq) (current_user : UserRec)
    (today : Nat) : Except ScheduleError DB :=
  if ¬ (current_user.role = "teacher" ∨ current_user.role = "admin") then
    .error .roleForbidden
  else
    match findLecture db sd.lecture_id with
    | none => .error .lectureNotFound
    | some lecture =>
      if current_user.role = "teacher" ∧ lecture.teacher_id ≠ current_user.id then
        .error .notOwnLecture
      else if current_user.role = "teacher" ∧ sd.teacher_id ≠ current_user.id then
        .error .teacherIdNotSelf
      else if current_user.role = "admin" ∧ (findActiveTeacherUser db sd.teacher_id).isNone then
        .error .teacherNotFound
      else if current_user.role = "admin" ∧ (findTeacherProfile db sd.teacher_id).isNone then
        .error .teacherProfileMissing
      else
        match sd.date, sd.start, sd.ed with
        | some d, some s, some e =>
          if s ≥ e then .error .startNotBeforeEnd
          else if d < today then .error .pastDate
          else
            match db.schedules.find? (fun sc =>
              sc.lecture_id == sd.lecture_id && sc.booking_date == d && !sc.is_expired) with
            | some ex =>
              if ¬ (e ≤ ex.start_time ∨ s ≥ ex.end_time) then .error .conflict
              else .ok { db with schedules := db.schedules ++ [⟨sd.lecture_id, d, s, e, false⟩] }
            | none =>
              .ok { db with schedules := db.schedules ++ [⟨sd.lecture_id, d, s, e, false⟩] }
        | _, _, _ => .error .formatError

/-- The errors `_check_teacher_permission` can raise. -/
inductive PermError where
  | lectureNotFound
  | forbidden
deriving DecidableEq, Repr

/-- Helper `_check_teacher_permission` (`bookings.py` lines 106-150): look
the lecture up; the primary teacher passes; otherwise pass exactly when an
assignment row exists for the actor — the multi-teacher flag of the lecture
is not read. -/
def check_teacher_permission (db : DB) (current_user : UserRec) (lecture_id : Nat) :
    Except PermError Bool :=
  match findLecture db lecture_id with
  | none => .error .lectureNotFound
  | some lecture =>
      if lecture.teacher_id = current_user.id then .ok true
      else if (findLectureTeacher db lecture_id current_user.id).isSome then .ok true
      else .error .forbidden

/-- The payload of `LectureCreate` as consumed by `create_lecture`; the
`teacher_id` is optional in the schema (`if not lecture_data.teacher_id`
checks for a missing value). -/
structure LectureCreateReq where
  teacher_id : Option Nat
  lecture_title : String
  lecture_description : String
  is_multi_teacher : Bool
deriving DecidableEq, Repr

/-- The errors `create_lecture` can raise, one per `HTTPException` site. -/
inductive CreateLectureError where
  | roleForbidden
  | ownProfileMissing
  | multiTeacherNotAllowed
  | teacherIdRequired
  | notSelfAsPrimary
  | teacherNotFound
  | teacherProfileMissing
deriving DecidableEq, Repr

/-- Fresh autoincrement id for a new `lectures` row. -/
def nextLectureId (db : DB) : Nat :=
  (db.lectures.map (fun l => l.id)).foldr max 0 + 1

/-- Endpoint `create_lecture` (POST on lectures): a teacher needs their own
profile, may not request multi-teacher mode and must name themself as
primary; an admin must name an existing, non-deleted teacher-role user with
a profile.  The new lecture starts with approval status pending and is not
deleted. -/
def create_lecture (db : DB) (ld : LectureCreateReq) (current_user : UserRec) :
    Except CreateLectureError DB :=
  if ¬ (current_user.role = "teacher" ∨ current_user.role = "admin") then
    .error .roleForbidden
  else if current_user.role = "teacher" then
    if (findTeacherProfile db current_user.id).isNone then .error .ownProfileMissing
    else if ld.is_multi_teacher then .error .multiTeacherNotAllowed
    else
      match ld.teacher_id with
      | none => .error .teacherIdRequired
      | some t =>
        if t ≠ current_user.id then .error .notSelfAsPrimary
        else .ok { db with lectures := db.lectures ++
          [⟨nextLectureId db, t, ld.lecture_title, ld.lecture_description,
            "pending", ld.is_multi_teacher, false⟩] }
  else
    match ld.teacher_id with
    | none => .error .teacherIdRequired
    | some t =>
      if (findActiveTeacherUser db t).isNone then .error .teacherNotFound
      else if (findTeacherProfile db t).isNone then .error .teacherProfileMissing
      else .ok { db with lectures := db.lectures ++
        [⟨nextLectureId db, t, ld.lecture_title, ld.lecture_description,
          "pending", ld.is_multi_teacher, false⟩] }

/-- The errors `add_teacher_to_lecture` can raise, in source order. -/
inductive AddTeacherError where
  | lectureNotFound
  | notMultiTeacher
  | teacherNotFound
  | teacherProfileMissing
  | alreadyJoined
deriving DecidableEq, Repr

/-- Endpoint `add_teacher_to_lecture` (POST on lecture teachers, admin only):
requires the lecture to exist and be multi-teacher, the target to be an
existing teacher-role user with a profile, and no existing assignment row
for the pair — the current primary teacher is NOT excluded. -/
def add_teacher_to_lecture (db : DB) (lecture_id teacher_id : Nat) :
    Except AddTeacherError DB :=
  match findLecture db lecture_id with
  | none => .error .lectureNotFound
  | some lecture =>
    if !lecture.is_multi_teacher then .error .notMultiTeacher
    else if (findActiveTeacherUser db teacher_id).isNone then .error .teacherNotFound
    else if (findTeacherProfile db teacher_id).isNone then .error .teacherProfileMissing
    else if (findLectureTeacher db lecture_id teacher_id).isSome then .error .alreadyJoined
    else .ok { db with lecture_teachers := db.lecture_teachers ++ [⟨lecture_id, teacher_id⟩] }

/-- The errors `remove_teacher_from_lecture` can raise, in source order. -/
inductive RemoveTeacherError where
  | lectureNotFound
  | notMultiTeacher
  | primaryNotRemovable
  | notJoined
deriving DecidableEq, Repr

/-- Whether a `remove_teacher_from_lecture` refusal is a business-rule
(policy) refusal — an HTTP 400 — rather than a missing-resource refusal. -/
def RemoveTeacherError.isPolicy : RemoveTeacherError → Bool
  | .notMultiTeacher => true
  | .primaryNotRemovable => true
  | _ => false

/-- Endpoint `remove_teacher_from_lecture` (DELETE on lecture teachers,
admin only): requires the lecture to exist and be multi-teacher, refuses the
current primary teacher, and otherwise deletes the assignment row found for
the pair. -/
def remove_teacher_from_lecture (db : DB) (lecture_id teacher_id : Nat) :
    Except RemoveTeacherError DB :=
  match findLecture db lecture_id with
  | none => .error .lectureNotFound
  | some lecture =>
    if !lecture.is_multi_teacher then .error .notMultiTeacher
    else if teacher_id = lecture.teacher_id then .error .primaryNotRemovable
    else
      match findLectureTeacher db lecture_id teacher_id with
      | none => .error .notJoined
      | some lt => .ok { db with lecture_teachers := db.lecture_teachers.erase lt }

/-- The errors `change_lecture_teacher` can raise, in source order. -/
inductive ChangeTeacherError where
  | lectureNotFound
  | newTeacherNotJoined
  | newTeacherNotFound
  | newTeacherProfileMissing
  | oldTeacherMissing
  | samePrimary
deriving DecidableEq, Repr

/-- Endpoint `change_lecture_teacher` (PATCH on lecture teacher, admin only):
for a multi-teacher lecture the new primary must already have an assignment
row; the new primary must be an existing non-deleted user with a profile;
changing to the current primary is refused; on success only the lecture row
is updated — the promoted teacher keeps any assignment row. -/
def change_lecture_teacher (db : DB) (lecture_id new_teacher_id : Nat) :
    Except ChangeTeacherError DB :=
  match findLecture db lecture_id with
  | none => .error .lectureNotFound
  | some lecture =>
    if lecture.is_multi_teacher ∧ (findLectureTeacher db lecture_id new_teacher_id).isNone then
      .error .newTeacherNotJoined
    else if (db.users.find? (fun u => u.id == new_teacher_id && !u.is_deleted)).isNone then
      .error .newTeacherNotFound
    else if (findTeacherProfile db new_teacher_id).isNone then
      .error .newTeacherProfileMissing
    else if (db.users.find? (fun u => u.id == lecture.teacher_id && !u.is_deleted)).isNone then
      .error .oldTeacherMissing
    else if lecture.teacher_id = new_teacher_id then
      .error .samePrimary
    else .ok { db with lectures := db.lectures.map (fun l =>
      if l.id == lecture_id && !l.is_deleted then { l with teacher_id := new_teacher_id } else l) }

/-- States reachable from a lecture-free initial state by the in-scope
lecture-staffing operations: lecture creation, assignment add, assignment
remove and teacher change. -/
inductive Reachable : DB → Prop where
  | init (users : List UserRec) (profiles : List TeacherProfileRec)
      (schedules : List ScheduleRec) (bookings : List BookingRec) :
      Reachable ⟨users, profiles, [], [], schedules, bookings⟩
  | createLecture {db db' : DB} (ld : LectureCreateReq) (u : UserRec) :
      Reachable db → create_lecture db ld u = .ok db' → Reachable db'
  | addTeacher {db db' : DB} (lid tid : Nat) :
      Reachable db → add_teacher_to_lecture db lid tid = .ok db' → Reachable db'
  | removeTeacher {db db' : DB} (lid tid : Nat) :
      Reachable db → remove_teacher_from_lecture db lid tid = .ok db' → Reachable db'
  | changeTeacher {db db' : DB} (lid tid : Nat) :
      Reachable db → change_lecture_teacher db lid tid = .ok db' → Reachable db'

/-- Invariant claimed by the spec: no lecture has its current primary
teacher also represented as an assignment row. -/
def primaryNeverAssigned (db : DB) : Prop :=
  ∀ l ∈ db.lectures, ∀ lt ∈ db.lecture_teachers,
    lt.lecture_id = l.id → lt.teacher_id ≠ l.teacher_id

instance (db : DB) : Decidable (primaryNeverAssigned db) := by
  unfold primaryNeverAssigned; infer_instance

/-- Invariant claimed by the spec: for each lecture and date, the active
(non-expired) schedules have pairwise non-overlapping half-open ranges. -/
def schedulesOverlapFree (db : DB) : Prop :=
  ∀ s1 ∈ db.schedules, ∀ s2 ∈ db.schedules,
    s1 ≠ s2 → s1.lecture_id = s2.lecture_id → s1.booking_date = s2.booking_date →
    s1.is_expired = false → s2.is_expired = false →
    (s1.end_time ≤ s2.start_time ∨ s2.end_time ≤ s1.start_time)

instance (db : DB) : Decidable (schedulesOverlapFree db) := by
  unfold schedulesOverlapFree; infer_instance

end Booking

namespace Booking

/-- Predicate `overlapsCheck`, for non-degenerate intervals, is exactly half-open
interval overlap `s < exEnd ∧ exStart < e`. -/
theorem overlapsCheck_eq_true_iff {exStart exEnd s e : Nat}
    (hex : exStart < exEnd) (hc : s < e) :
    overlapsCheck exStart exEnd s e = true ↔ (s < exEnd ∧ exStart < e) := by
  simp only [overlapsCheck, Bool.or_eq_true, Bool.and_eq_true, decide_eq_true_eq]
  omega

/-- C3: for all intervals with `start1 < end1` and `start2 < end2`, the
booking conflict predicate (the three-clause disjunction applied to each
existing booking row) is true iff `start1 < end2 ∧ start2 < end1`; touching
intervals (`end1 = start2`) never conflict, and the predicate is symmetric
in its two intervals. -/
theorem bookingConflictPredicateCharacterization (s1 e1 s2 e2 : Nat)
    (h1 : s1 < e1) (h2 : s2 < e2) :
    (overlapsCheck s2 e2 s1 e1 = true ↔ (s1 < e2 ∧ s2 < e1)) ∧
    overlapsCheck s2 e2 s1 e1 = overlapsCheck s1 e1 s2 e2 ∧
    (e1 = s2 → overlapsCheck s2 e2 s1 e1 = false) := by
  refine ⟨overlapsCheck_eq_true_iff h2 h1, ?_, ?_⟩
  · have ha := overlapsCheck_eq_true_iff h2 h1
    have hb := overlapsCheck_eq_true_iff h1 h2
    rw [Bool.eq_iff_iff, ha, hb]
    omega
  · intro hts
    have ha := overlapsCheck_eq_true_iff h2 h1
    rcases hx : overlapsCheck s2 e2 s1 e1 with _ | _
    · rfl
    · exact absurd (ha.mp hx) (by omega)

/-- Closed instance of `bookingConflictPredicateCharacterization`: the
touching ranges 9:00-10:00 and 10:00-11:00 do not conflict. -/
theorem bookingConflictPredicateCharacterizationWitness :
    overlapsCheck 600 660 540 600 = false :=
  (bookingConflictPredicateCharacterization 540 600 600 660
    (by decide) (by decide)).2.2 rfl

/-- C6: cancelling by the owner succeeds exactly from status pending
(setting it to cancelled); from confirmed it fails with the specific
already-confirmed error; from any other non-pending status it fails with
the generic cannot-cancel error carrying that status; every failure leaves
the database unchanged. -/
theorem cancelBookingLifecycle (db : DB) (bid : Nat) (b : BookingRec) (u : UserRec)
    (hfind : db.bookings.find? (fun x => x.id == bid) = some b)
    (howner : b.user_id = u.id) :
    (b.status = "pending" →
      cancel_booking db bid u = .ok { db with bookings := db.bookings.map (fun x =>
        if x.id == bid then { x with status := "cancelled" } else x) }) ∧
    (b.status = "confirmed" → cancel_booking db bid u = .error .alreadyConfirmed) ∧
    (b.status ≠ "pending" → b.status ≠ "confirmed" →
      cancel_booking db bid u = .error (.cannotCancelFrom b.status)) := by
  refine ⟨?_, ?_, ?_⟩
  · intro hs
    simp [cancel_booking, hfind, howner, hs]
  · intro hs
    simp [cancel_booking, hfind, howner, hs]
  · intro hs hc
    simp [cancel_booking, hfind, howner, hs, hc]

/-- Closed instance of `cancelBookingLifecycle`: a pending booking owned by
user 5 is cancelled by user 5. -/
theorem cancelBookingLifecycleWitness :
    cancel_booking ⟨[], [], [], [], [], [⟨1, 5, 1, "pending", 100, 540, 600, false⟩]⟩ 1
      ⟨5, "student", false⟩ =
    .ok ⟨[], [], [], [], [], [⟨1, 5, 1, "cancelled", 100, 540, 600, false⟩]⟩ :=
  (cancelBookingLifecycle ⟨[], [], [], [], [], [⟨1, 5, 1, "pending", 100, 540, 600, false⟩]⟩
    1 ⟨1, 5, 1, "pending", 100, 540, 600, false⟩
    ⟨5, "student", false⟩ (by decide) rfl).1 rfl

theorem bookingErrs1_rule_eq (item : BookingItem) (cu : UserRec) :
    ∀ x ∈ bookingErrs1 item cu, x.rule = 1 := by
  intro x hx
  unfold bookingErrs1 at hx
  split at hx <;> simp at hx
  subst hx; rfl

theorem bookingErrs23_rule_bounds (db : DB) (item : BookingItem) :
    ∀ x ∈ bookingErrs23 db item, 2 ≤ x.rule ∧ x.rule ≤ 3 := by
  intro x hx
  unfold bookingErrs23 at hx
  split at hx
  · simp at hx; subst hx; exact ⟨le_refl _, by decide⟩
  · split at hx <;> simp at hx
    subst hx; exact ⟨by decide, le_refl _⟩

theorem bookingErrs4_rule_eq (item : BookingItem) (today : Nat) :
    ∀ x ∈ bookingErrs4 item today, x.rule = 4 := by
  intro x hx
  unfold bookingErrs4 at hx
  split at hx
  · rcases List.mem_append.mp hx with h | h <;> (split at h <;> simp at h) <;> (subst h; rfl)
  · simp at hx; subst hx; rfl

theorem bookingErrs5_rule_eq (db : DB) (item : BookingItem) :
    ∀ x ∈ bookingErrs5 db item, x.rule = 5 := by
  intro x hx
  unfold bookingErrs5 at hx
  split at hx
  · split at hx <;> simp at hx
    subst hx; rfl
  · simp at hx; subst hx; rfl

theorem pairwiseRuleOfConst (l : List BookingError) (r : Nat)
    (h : ∀ x ∈ l, x.rule = r) : l.Pairwise (fun a b => a.rule ≤ b.rule) := by
  induction l with
  | nil => exact List.Pairwise.nil
  | cons a t ih =>
      refine List.Pairwise.cons ?_ (ih ?_)
      · intro y hy
        rw [h a (List.mem_cons_self a t), h y (List.mem_cons_of_mem a hy)]
      · intro x hx; exact h x (List.mem_cons_of_mem a hx)

/-- The `errors` list of `_validate_booking_data` is ordered by rule number:
the blocks append in source order 1, 2/3, 4, 5. -/
theorem validateSorted (db : DB) (item : BookingItem) (cu : UserRec) (today : Nat) :
    (validate_booking_data db item cu today).Pairwise (fun a b => a.rule ≤ b.rule) := by
  have h1 := bookingErrs1_rule_eq item cu
  have h23 := bookingErrs23_rule_bounds db item
  have h4 := bookingErrs4_rule_eq item today
  have h5 := bookingErrs5_rule_eq db item
  unfold validate_booking_data
  rw [List.pairwise_append]
  refine ⟨pairwiseRuleOfConst _ 1 h1, ?_, ?_⟩
  · rw [List.pairwise_append]
    refine ⟨?_, ?_, ?_⟩
    · unfold bookingErrs23
      split
      · simp
      · split <;> simp
    · rw [List.pairwise_append]
      refine ⟨pairwiseRuleOfConst _ 4 h4, pairwiseRuleOfConst _ 5 h5, ?_⟩
      intro a ha b hb
      rw [h4 a ha, h5 b hb]
      decide
    · intro a ha b hb
      rcases List.mem_append.mp hb with h | h
      · have := h23 a ha; have := h4 b h; omega
      · have := h23 a ha; have := h5 b h; omega
  · intro a ha b hb
    have hra := h1 a ha
    rcases List.mem_append.mp hb with h | h
    · have := h23 b h; omega
    · rcases List.mem_append.mp h with h2 | h2
      · have := h4 b h2; omega
      · have := h5 b h2; omega

/-- The first error of a non-empty validation result has the minimal rule
number among all reported errors. -/
theorem validateHeadMin (db : DB) (item : BookingItem) (cu : UserRec) (today : Nat)
    (err : BookingError) (errs : List BookingError)
    (h : validate_booking_data db item cu today = err :: errs) :
    ∀ x ∈ validate_booking_data db item cu today, err.rule ≤ x.rule := by
  have hp := validateSorted db item cu today
  rw [h] at hp
  rw [h]
  intro x hx
  rcases List.mem_cons.mp hx with hh | hh
  · exact hh ▸ le_refl _
  · exact (List.pairwise_cons.mp hp).1 x hh

/-- C2: when two or more admission rules fail, the booking endpoint reports
the error of the smallest-numbered failing rule (the head of the collected
error list), so duplicate-failure requests deterministically report that one
reason. -/
theorem firstFailingRuleReported (db : DB) (item : BookingItem) (cu : UserRec) (today : Nat)
    (htwo : 2 ≤ (validate_booking_data db item cu today).length) :
    ∃ err errs, validate_booking_data db item cu today = err :: errs ∧
      (∀ x ∈ validate_booking_data db item cu today, err.rule ≤ x.rule) ∧
      create_booking db item cu today = .error err := by
  rcases hv : validate_booking_data db item cu today with _ | ⟨err, errs⟩
  · rw [hv] at htwo; simp at htwo
  · have hmin := validateHeadMin db item cu today err errs hv
    rw [hv] at hmin
    exact ⟨err, errs, rfl, hmin, by simp [create_booking, hv]⟩

/-- Closed instance of `firstFailingRuleReported`: a request failing rule 1
(user mismatch) and rule 2 (lecture missing) reports the rule-1 reason. -/
theorem firstFailingRuleReportedWitness :
    create_booking ⟨[], [], [], [], [], []⟩ ⟨7, 1, 10, some 100, some 540, some 600⟩
      ⟨5, "student", false⟩ 0 = .error .userMismatch := by
  obtain ⟨err, errs, heq, hmin, hrep⟩ :=
    firstFailingRuleReported ⟨[], [], [], [], [], []⟩ ⟨7, 1, 10, some 100, some 540, some 600⟩
      ⟨5, "student", false⟩ 0 (by decide)
  have hv : validate_booking_data ⟨[], [], [], [], [], []⟩
      ⟨7, 1, 10, some 100, some 540, some 600⟩ ⟨5, "student", false⟩ 0 =
      [.userMismatch, .lectureNotFound] := by decide
  rw [hv] at heq
  injection heq with hh ht
  rw [← hh] at hrep
  exact hrep

theorem findLecture_set_schedules (db : DB) (scheds : List ScheduleRec) (lid : Nat) :
    findLecture { db with schedules := scheds } lid = findLecture db lid := rfl

theorem findActiveTeacherUser_set_schedules (db : DB) (scheds : List ScheduleRec) (tid : Nat) :
    findActiveTeacherUser { db with schedules := scheds } tid = findActiveTeacherUser db tid := rfl

theorem findTeacherProfile_set_schedules (db : DB) (scheds : List ScheduleRec) (tid : Nat) :
    findTeacherProfile { db with schedules := scheds } tid = findTeacherProfile db tid := rfl

/-- With a degenerate time range, `create_schedule` never reads the
schedules table: its outcome is invariant under replacing that table. -/
theorem create_schedule_degenerate_ignores_schedules (db : DB) (sd : ScheduleReq)
    (u : UserRec) (today : Nat) {s e : Nat}
    (hs : sd.start = some s) (he : sd.ed = some e) (hse : e ≤ s)
    (scheds : List ScheduleRec) :
    create_schedule { db with schedules := scheds } sd u today =
      create_schedule db sd u today := by
  have hge : s ≥ e := hse
  rcases hd : sd.date with _ | d <;>
    simp only [create_schedule, findLecture_set_schedules, findActiveTeacherUser_set_schedules,
      findTeacherProfile_set_schedules, hs, he, hd, hge, if_true]

/-- With a degenerate time range, `create_schedule` fails before the
duplicate-time check: the outcome is an error other than the conflict
error. -/
theorem create_schedule_degenerate_errs (db : DB) (sd : ScheduleReq)
    (u : UserRec) (today : Nat) {s e : Nat}
    (hs : sd.start = some s) (he : sd.ed = some e) (hse : e ≤ s) :
    ∃ err, create_schedule db sd u today = .error err ∧ err ≠ .conflict := by
  have hge : s ≥ e := hse
  rcases hd : sd.date with _ | d <;>
    simp only [create_schedule, hs, he, hd, hge, if_true] <;>
    repeat' (first | exact ⟨_, rfl, by decide⟩ | split)

/-- C10 (amended): a schedule request whose start is not strictly before
its end is rejected with a non-conflict error before the duplicate-time
check runs, identically for every schedules table; a booking request whose
start is not strictly before its end is rejected and the reported first
reason belongs to rules 1-4 (never a rule-5 conflict reason), although the
conflict query itself still runs and can append a rule-5 reason further
down the list. -/
theorem degenerateStartEndRejected :
    (∀ (db : DB) (sd : ScheduleReq) (u : UserRec) (today s e : Nat),
      sd.start = some s → sd.ed = some e → e ≤ s →
      ∃ err, create_schedule db sd u today = .error err ∧ err ≠ .conflict ∧
        ∀ scheds, create_schedule { db with schedules := scheds } sd u today = .error err) ∧
    (∀ (db : DB) (item : BookingItem) (cu : UserRec) (today s e : Nat),
      item.start_time = some s → item.end_time = some e → e ≤ s →
      ∃ err errs, validate_booking_data db item cu today = err :: errs ∧
        err.rule ≤ 4 ∧ create_booking db item cu today = .error err) := by
  constructor
  · intro db sd u today s e hs he hse
    obtain ⟨err, herr, hne⟩ := create_schedule_degenerate_errs db sd u today hs he hse
    exact ⟨err, herr, hne, fun scheds =>
      (create_schedule_degenerate_ignores_schedules db sd u today hs he hse scheds).trans herr⟩
  · intro db item cu today s e hs he hse
    have h4ne : ∃ x ∈ bookingErrs4 item today, x.rule = 4 := by
      rcases hd : item.reserved_date with _ | d
      · exact ⟨.formatError, by simp [bookingErrs4, hd, hs, he], rfl⟩
      · refine ⟨.startNotBeforeEnd, ?_, rfl⟩
        simp only [bookingErrs4, hd, hs, he]
        simp [List.mem_append, hse]
    obtain ⟨x4, hx4, hr4⟩ := h4ne
    have hx4v : x4 ∈ validate_booking_data db item cu today := by
      unfold validate_booking_data
      simp only [List.mem_append]
      exact Or.inr (Or.inr (Or.inl hx4))
    rcases hv : validate_booking_data db item cu today with _ | ⟨err, errs⟩
    · rw [hv] at hx4v; simp at hx4v
    · have hmin := validateHeadMin db item cu today err errs hv
      have := hmin x4 hx4v
      exact ⟨err, errs, rfl, by omega, by simp [create_booking, hv]⟩

/-- Closed instance of `degenerateStartEndRejected` (schedule half): start
10:00, end 9:00 is refused with the start-before-end error for any
schedules table contents. -/
theorem degenerateStartEndRejectedWitness :
    create_schedule ⟨[], [], [⟨1, 10, "t", "d", "pending", false, false⟩], [], [], []⟩
      ⟨1, 10, some 100, some 600, some 540⟩ ⟨10, "teacher", false⟩ 0 =
      .error .startNotBeforeEnd := by
  obtain ⟨err, herr, hne, hall⟩ :=
    degenerateStartEndRejected.1 ⟨[], [], [⟨1, 10, "t", "d", "pending", false, false⟩], [], [], []⟩
      ⟨1, 10, some 100, some 600, some 540⟩ ⟨10, "teacher", false⟩ 0 600 540 rfl rfl (by decide)
  have : err = .startNotBeforeEnd := by
    have h0 := herr
    rw [show create_schedule ⟨[], [], [⟨1, 10, "t", "d", "pending", false, false⟩], [], [], []⟩
      ⟨1, 10, some 100, some 600, some 540⟩ ⟨10, "teacher", false⟩ 0 =
      (.error .startNotBeforeEnd : Except ScheduleError DB) from rfl] at h0
    injection h0 with h1
    exact h1.symm
  rw [this] at herr
  exact herr

/-- C10 counterexample: for a booking request with start 10:00 and end
9:00 against a state holding an overlapping own pending booking, the
produced reason list DOES contain the rule-5 conflict reason (the conflict
query still runs after the time-sanity failure), contradicting the claim
that no conflict reason is produced and that the outcome is independent of
the existing bookings. -/
theorem degenerateStartEndConflictReasonProduced :
    validate_booking_data
      ⟨[], [], [⟨1, 10, "t", "d", "pending", false, false⟩], [],
        [], [⟨1, 5, 1, "pending", 100, 540, 660, false⟩]⟩
      ⟨5, 1, 10, some 100, some 600, some 540⟩ ⟨5, "student", false⟩ 0 =
      [.startNotBeforeEnd, .conflictExists] ∧
    BookingError.conflictExists ∈ validate_booking_data
      ⟨[], [], [⟨1, 10, "t", "d", "pending", false, false⟩], [],
        [], [⟨1, 5, 1, "pending", 100, 540, 660, false⟩]⟩
      ⟨5, 1, 10, some 100, some 600, some 540⟩ ⟨5, "student", false⟩ 0 ∧
    validate_booking_data
      ⟨[], [], [⟨1, 10, "t", "d", "pending", false, false⟩], [], [], []⟩
      ⟨5, 1, 10, some 100, some 600, some 540⟩ ⟨5, "student", false⟩ 0 =
      [.startNotBeforeEnd] := by
  refine ⟨by decide, ?_, by decide⟩
  decide

/-- C9 (amended): when all five rules pass, `create_booking` appends exactly
one new booking row carrying the request's user reference, lecture
reference, parsed date and times, status pending and a fresh id, touching
nothing else — the row stores no teacher reference (the validated
`teacher_id` of the request is not persisted). -/
theorem admittedBookingPersisted (db : DB) (item : BookingItem) (cu : UserRec) (today : Nat)
    (hok : validate_booking_data db item cu today = []) :
    ∃ d s e, item.reserved_date = some d ∧ item.start_time = some s ∧ item.end_time = some e ∧
      create_booking db item cu today = .ok { db with bookings := db.bookings ++
        [⟨nextBookingId db, item.user_id, item.lecture_id, "pending", d, s, e, false⟩] } := by
  have h4 : bookingErrs4 item today = [] := by
    have h := hok
    unfold validate_booking_data at h
    rcases List.append_eq_nil.mp h with ⟨-, h23⟩
    rcases List.append_eq_nil.mp h23 with ⟨-, h45⟩
    exact (List.append_eq_nil.mp h45).1
  rcases hd : item.reserved_date with _ | d
  · rw [bookingErrs4, hd] at h4; simp at h4
  · rcases hs : item.start_time with _ | s
    · rw [bookingErrs4, hd, hs] at h4; simp at h4
    · rcases he : item.end_time with _ | e
      · rw [bookingErrs4, hd, hs, he] at h4; simp at h4
      · exact ⟨d, s, e, rfl, rfl, rfl, by simp [create_booking, hok, hd, hs, he]⟩

/-- Closed instance of `admittedBookingPersisted`: a fully valid request is
persisted as a pending booking row. -/
theorem admittedBookingPersistedWitness :
    create_booking ⟨[], [], [⟨1, 10, "t", "d", "pending", false, false⟩], [], [], []⟩
      ⟨5, 1, 10, some 100, some 540, some 600⟩ ⟨5, "student", false⟩ 0 =
    .ok ⟨[], [], [⟨1, 10, "t", "d", "pending", false, false⟩], [], [],
      [⟨1, 5, 1, "pending", 100, 540, 600, false⟩]⟩ := by
  obtain ⟨d, s, e, hd, hs, he, hres⟩ :=
    admittedBookingPersisted ⟨[], [], [⟨1, 10, "t", "d", "pending", false, false⟩], [], [], []⟩
      ⟨5, 1, 10, some 100, some 540, some 600⟩ ⟨5, "student", false⟩ 0 (by decide)
  injection hd with hd1
  injection hs with hs1
  injection he with he1
  rw [← hd1, ← hs1, ← he1] at hres
  exact hres

/-- C9 counterexample: two admissible requests that differ only in their
`teacher_id` (one names the primary teacher, the other an assigned teacher)
produce identical committed states, so the persisted booking cannot carry a
teacher reference equal to the corresponding request field. -/
theorem bookingTeacherReferenceNotPersisted :
    create_booking
      ⟨[⟨10, "teacher", false⟩, ⟨20, "teacher", false⟩], [⟨10⟩, ⟨20⟩],
        [⟨1, 10, "t", "d", "pending", true, false⟩], [⟨1, 20⟩], [], []⟩
      ⟨5, 1, 10, some 100, some 540, some 600⟩ ⟨5, "student", false⟩ 0 =
    .ok ⟨[⟨10, "teacher", false⟩, ⟨20, "teacher", false⟩], [⟨10⟩, ⟨20⟩],
        [⟨1, 10, "t", "d", "pending", true, false⟩], [⟨1, 20⟩], [],
        [⟨1, 5, 1, "pending", 100, 540, 600, false⟩]⟩ ∧
    create_booking
      ⟨[⟨10, "teacher", false⟩, ⟨20, "teacher", false⟩], [⟨10⟩, ⟨20⟩],
        [⟨1, 10, "t", "d", "pending", true, false⟩], [⟨1, 20⟩], [], []⟩
      ⟨5, 1, 20, some 100, some 540, some 600⟩ ⟨5, "student", false⟩ 0 =
    .ok ⟨[⟨10, "teacher", false⟩, ⟨20, "teacher", false⟩], [⟨10⟩, ⟨20⟩],
        [⟨1, 10, "t", "d", "pending", true, false⟩], [⟨1, 20⟩], [],
        [⟨1, 5, 1, "pending", 100, 540, 600, false⟩]⟩ ∧
    (10 : Nat) ≠ 20 := by
  exact ⟨rfl, rfl, by decide⟩

/-- C4 (amended): for a teacher actor who is not the lecture's primary
teacher, `_check_teacher_permission` authorizes exactly when an assignment
row exists for (lecture, actor) — the lecture's multi-teacher flag is never
consulted — and forbids otherwise. -/
theorem teacherPermissionByAssignmentRow (db : DB) (u : UserRec) (lid : Nat)
    (lecture : LectureRec) (_hrole : u.role = "teacher")
    (hfind : findLecture db lid = some lecture)
    (hnp : lecture.teacher_id ≠ u.id) :
    (check_teacher_permission db u lid = .ok true ↔
      (findLectureTeacher db lid u.id).isSome = true) ∧
    ((findLectureTeacher db lid u.id).isSome = false →
      check_teacher_permission db u lid = .error .forbidden) := by
  constructor
  · constructor
    · intro h
      by_contra hc
      simp only [Bool.not_eq_true] at hc
      simp [check_teacher_permission, hfind, hnp, hc] at h
    · intro h
      simp [check_teacher_permission, hfind, hnp, h]
  · intro h
    simp [check_teacher_permission, hfind, hnp, h]

/-- Closed instance of `teacherPermissionByAssignmentRow`: assigned teacher
20 without an assignment row is forbidden. -/
theorem teacherPermissionByAssignmentRowWitness :
    check_teacher_permission
      ⟨[], [], [⟨1, 10, "t", "d", "pending", true, false⟩], [], [], []⟩
      ⟨20, "teacher", false⟩ 1 = .error .forbidden :=
  (teacherPermissionByAssignmentRow
    ⟨[], [], [⟨1, 10, "t", "d", "pending", true, false⟩], [], [], []⟩
    ⟨20, "teacher", false⟩ 1 ⟨1, 10, "t", "d", "pending", true, false⟩
    rfl rfl (by decide)).2 rfl

/-- C4 counterexample: a single-teacher lecture (multi-teacher flag false)
carrying an assignment row for teacher 20 — `_check_teacher_permission`
authorizes actor 20 although the claim requires Forbidden whenever
`is_multi_teacher` is false. -/
theorem teacherPermissionIgnoresMultiFlag :
    check_teacher_permission
      ⟨[], [], [⟨1, 10, "t", "d", "pending", false, false⟩], [⟨1, 20⟩], [], []⟩
      ⟨20, "teacher", false⟩ 1 = .ok true ∧
    findLecture ⟨[], [], [⟨1, 10, "t", "d", "pending", false, false⟩], [⟨1, 20⟩], [], []⟩ 1 =
      some ⟨1, 10, "t", "d", "pending", false, false⟩ ∧
    (⟨1, 10, "t", "d", "pending", false, false⟩ : LectureRec).is_multi_teacher = false := by
  exact ⟨rfl, rfl, rfl⟩

/-- C5 (amended): a teacher actor can create a schedule only on a lecture
whose primary teacher they are: any other teacher — including an assigned
non-primary teacher of a multi-teacher lecture — receives the authorization
error, while the primary teacher naming themself succeeds on otherwise
valid input. -/
theorem schedulePrimaryTeacherOnly (db : DB) (sd : ScheduleReq) (u : UserRec)
    (today : Nat) (lecture : LectureRec) (hrole : u.role = "teacher")
    (hfind : findLecture db sd.lecture_id = some lecture) :
    (lecture.teacher_id ≠ u.id →
      create_schedule db sd u today = .error .notOwnLecture) ∧
    (lecture.teacher_id = u.id → sd.teacher_id = u.id →
      ∀ d s e, sd.date = some d → sd.start = some s → sd.ed = some e →
      s < e → today ≤ d →
      (∀ ex, db.schedules.find? (fun sc =>
          sc.lecture_id == sd.lecture_id && sc.booking_date == d && !sc.is_expired) = some ex →
        (e ≤ ex.start_time ∨ s ≥ ex.end_time)) →
      create_schedule db sd u today =
        .ok { db with schedules := db.schedules ++ [⟨sd.lecture_id, d, s, e, false⟩] }) := by
  constructor
  · intro hne
    simp [create_schedule, hrole, hfind, hne]
  · intro hpr hself d s e hd hs he hlt htd hnoc
    have h1 : ¬ s ≥ e := by omega
    have h2 : ¬ d < today := by omega
    rcases hsc : db.schedules.find? (fun sc =>
        sc.lecture_id == sd.lecture_id && sc.booking_date == d && !sc.is_expired) with _ | ex
    · simp [create_schedule, hrole, hfind, hpr, hself, hd, hs, he, h1, h2, hsc]
    · have hov := hnoc ex hsc
      simp [create_schedule, hrole, hfind, hpr, hself, hd, hs, he, h1, h2, hsc, hov]

/-- Closed instance of `schedulePrimaryTeacherOnly`: primary teacher 10
creates a schedule on an empty schedules table. -/
theorem schedulePrimaryTeacherOnlyWitness :
    create_schedule ⟨[], [], [⟨1, 10, "t", "d", "pending", true, false⟩], [⟨1, 20⟩], [], []⟩
      ⟨1, 10, some 100, some 540, some 600⟩ ⟨10, "teacher", false⟩ 0 =
    .ok ⟨[], [], [⟨1, 10, "t", "d", "pending", true, false⟩], [⟨1, 20⟩],
      [⟨1, 100, 540, 600, false⟩], []⟩ := by
  have h := (schedulePrimaryTeacherOnly
    ⟨[], [], [⟨1, 10, "t", "d", "pending", true, false⟩], [⟨1, 20⟩], [], []⟩
    ⟨1, 10, some 100, some 540, some 600⟩ ⟨10, "teacher", false⟩ 0
    ⟨1, 10, "t", "d", "pending", true, false⟩ rfl rfl).2
    rfl rfl 100 540 600 rfl rfl rfl (by decide) (by decide)
    (by intro ex hex; simp at hex)
  exact h

/-- C5 counterexample: teacher 20 is an assigned (non-primary) teacher of
multi-teacher lecture 1 yet the endpoint refuses their otherwise valid
schedule request with the authorization error, where the claim requires
success. -/
theorem assignedTeacherCannotCreateSchedule :
    create_schedule ⟨[], [], [⟨1, 10, "t", "d", "pending", true, false⟩], [⟨1, 20⟩], [], []⟩
      ⟨1, 20, some 100, some 540, some 600⟩ ⟨20, "teacher", false⟩ 0 =
      .error .notOwnLecture ∧
    findLectureTeacher ⟨[], [], [⟨1, 10, "t", "d", "pending", true, false⟩], [⟨1, 20⟩], [], []⟩
      1 20 = some ⟨1, 20⟩ := by
  exact ⟨rfl, rfl⟩

/-- C7 counterexample: from a lecture-free state, an admin creates a
multi-teacher lecture with primary teacher 10 and then adds teacher 10 via
assignment-add, which does not exclude the current primary — reaching a
state where the primary teacher is represented as an assignment row. -/
theorem primaryTeacherAssignmentReachable :
    Reachable ⟨[⟨10, "teacher", false⟩], [⟨10⟩],
      [⟨1, 10, "t", "d", "pending", true, false⟩], [⟨1, 10⟩], [], []⟩ ∧
    ¬ primaryNeverAssigned ⟨[⟨10, "teacher", false⟩], [⟨10⟩],
      [⟨1, 10, "t", "d", "pending", true, false⟩], [⟨1, 10⟩], [], []⟩ := by
  constructor
  · exact Reachable.addTeacher 1 10
      (Reachable.createLecture ⟨some 10, "t", "d", true⟩ ⟨99, "admin", false⟩
        (Reachable.init [⟨10, "teacher", false⟩] [⟨10⟩] [] []) rfl) rfl
  · decide

/-- C7 (amended): the assignment-removal operation preserves the
no-primary-assignment-row invariant (it only deletes assignment rows and
never touches the lectures table); the invariant is nevertheless not
maintained by assignment-add or teacher-change. -/
theorem removeTeacherPreservesPrimaryNeverAssigned (db db' : DB) (lid tid : Nat)
    (hinv : primaryNeverAssigned db)
    (hok : remove_teacher_from_lecture db lid tid = .ok db') :
    primaryNeverAssigned db' := by
  unfold remove_teacher_from_lecture at hok
  rcases hf : findLecture db lid with _ | lecture <;> simp only [hf] at hok
  · exact absurd hok (by simp)
  · by_cases hm : lecture.is_multi_teacher = true
    case neg => rw [if_pos (by simp [hm])] at hok; exact absurd hok (by simp)
    case pos =>
      rw [if_neg (by simp [hm])] at hok
      by_cases hp : tid = lecture.teacher_id
      · rw [if_pos hp] at hok; exact absurd hok (by simp)
      · rw [if_neg hp] at hok
        rcases hlt : findLectureTeacher db lid tid with _ | ltr <;> rw [hlt] at hok
        · exact absurd hok (by simp)
        · injection hok with hok
          subst hok
          unfold primaryNeverAssigned at hinv ⊢
          intro l hl lt hmem heq
          exact hinv l hl lt (List.mem_of_mem_erase hmem) heq

/-- Closed instance of `removeTeacherPreservesPrimaryNeverAssigned`:
removing assigned teacher 20 keeps the invariant. -/
theorem removeTeacherPreservesPrimaryNeverAssignedWitness :
    primaryNeverAssigned ⟨[⟨10, "teacher", false⟩, ⟨20, "teacher", false⟩], [⟨10⟩, ⟨20⟩],
      [⟨1, 10, "t", "d", "pending", true, false⟩], [], [], []⟩ :=
  removeTeacherPreservesPrimaryNeverAssigned
    ⟨[⟨10, "teacher", false⟩, ⟨20, "teacher", false⟩], [⟨10⟩, ⟨20⟩],
      [⟨1, 10, "t", "d", "pending", true, false⟩], [⟨1, 20⟩], [], []⟩
    ⟨[⟨10, "teacher", false⟩, ⟨20, "teacher", false⟩], [⟨10⟩, ⟨20⟩],
      [⟨1, 10, "t", "d", "pending", true, false⟩], [], [], []⟩
    1 20 (by decide) rfl

/-- C1: the duplicate-time check of `create_schedule` compares the
candidate only against the first matching row, so a third schedule
overlapping the second active schedule of the same lecture and date is
admitted, and the reachable state violates the pairwise no-overlap
invariant: from one lecture, the primary teacher creates 9:00-10:00, then
11:00-12:00, then 11:00-11:30 — all three are accepted although the last
overlaps the second. -/
theorem scheduleOverlapAdmittedBug :
    create_schedule ⟨[], [], [⟨1, 10, "t", "d", "pending", false, false⟩], [], [], []⟩
      ⟨1, 10, some 100, some 540, some 600⟩ ⟨10, "teacher", false⟩ 0 =
      .ok ⟨[], [], [⟨1, 10, "t", "d", "pending", false, false⟩], [],
        [⟨1, 100, 540, 600, false⟩], []⟩ ∧
    create_schedule ⟨[], [], [⟨1, 10, "t", "d", "pending", false, false⟩], [],
        [⟨1, 100, 540, 600, false⟩], []⟩
      ⟨1, 10, some 100, some 660, some 720⟩ ⟨10, "teacher", false⟩ 0 =
      .ok ⟨[], [], [⟨1, 10, "t", "d", "pending", false, false⟩], [],
        [⟨1, 100, 540, 600, false⟩, ⟨1, 100, 660, 720, false⟩], []⟩ ∧
    create_schedule ⟨[], [], [⟨1, 10, "t", "d", "pending", false, false⟩], [],
        [⟨1, 100, 540, 600, false⟩, ⟨1, 100, 660, 720, false⟩], []⟩
      ⟨1, 10, some 100, some 660, some 690⟩ ⟨10, "teacher", false⟩ 0 =
      .ok ⟨[], [], [⟨1, 10, "t", "d", "pending", false, false⟩], [],
        [⟨1, 100, 540, 600, false⟩, ⟨1, 100, 660, 720, false⟩,
         ⟨1, 100, 660, 690, false⟩], []⟩ ∧
    (∃ ex ∈ [(⟨1, 100, 540, 600, false⟩ : ScheduleRec), ⟨1, 100, 660, 720, false⟩],
      ex.lecture_id = 1 ∧ ex.booking_date = 100 ∧ ex.is_expired = false ∧
      overlapsCheck ex.start_time ex.end_time 660 690 = true) ∧
    ¬ schedulesOverlapFree ⟨[], [], [⟨1, 10, "t", "d", "pending", false, false⟩], [],
        [⟨1, 100, 540, 600, false⟩, ⟨1, 100, 660, 720, false⟩,
         ⟨1, 100, 660, 690, false⟩], []⟩ := by
  refine ⟨rfl, rfl, rfl, ?_, ?_⟩ <;> decide

/-- C8: invoking assignment removal with the lecture's current primary
teacher always fails with a policy (HTTP 400 business-rule) error —
the not-multi-teacher refusal or the primary-not-removable refusal — and,
failing, leaves the assignment rows unchanged. -/
theorem removePrimaryTeacherFails (db : DB) (lid : Nat) (lecture : LectureRec)
    (hfind : findLecture db lid = some lecture) :
    ∃ err, remove_teacher_from_lecture db lid lecture.teacher_id = .error err ∧
      err.isPolicy = true := by
  rcases hm : lecture.is_multi_teacher with _ | _
  · exact ⟨.notMultiTeacher, by simp [remove_teacher_from_lecture, hfind, hm], rfl⟩
  · exact ⟨.primaryNotRemovable, by simp [remove_teacher_from_lecture, hfind, hm], rfl⟩

/-- Closed instance of `removePrimaryTeacherFails`: removing teacher 10, the
primary of multi-teacher lecture 1, fails with a policy error. -/
theorem removePrimaryTeacherFailsWitness :
    remove_teacher_from_lecture
      ⟨[], [], [⟨1, 10, "t", "d", "pending", true, false⟩], [⟨1, 20⟩], [], []⟩ 1 10 =
      .error .primaryNotRemovable ∧
    RemoveTeacherError.primaryNotRemovable.isPolicy = true := by
  obtain ⟨err, h1, h2⟩ :=
    removePrimaryTeacherFails
      ⟨[], [], [⟨1, 10, "t", "d", "pending", true, false⟩], [⟨1, 20⟩], [], []⟩
      1 ⟨1, 10, "t", "d", "pending", true, false⟩ rfl
  have h0 : err = .primaryNotRemovable := by
    have h3 := h1
    rw [show remove_teacher_from_lecture
      ⟨[], [], [⟨1, 10, "t", "d", "pending", true, false⟩], [⟨1, 20⟩], [], []⟩ 1 10 =
      (.error .primaryNotRemovable : Except RemoveTeacherError DB) from rfl] at h3
    injection h3 with h4
    exact h4.symm
  rw [h0] at h1
  exact ⟨h1, rfl⟩

end Booking
